import Mathlib

/-
Shallow embedding of the damage-per-round calculator engine in
src/packages/data/DPRCalculator.ts (classes Die, DiceSet, Attack and the
helper functions T, p_hit, p_crit, calculateDefaultCritDice).

Modelling conventions:
  - JavaScript numbers are embedded as exact rationals (ℚ); the numeric
    literals of the source (0.05, 20, ...) are exact decimal fractions here.
  - The JavaScript value undefined, and NaN results that arise from
    arithmetic on undefined, are modelled with Option: none stands for
    undefined-or-NaN, some q for the real number q.  In the source the only
    field that can hold undefined is Die.sides (the Die constructor has no
    default for it), so Die.sides is Option ℚ while reroll and minRoll,
    which always receive their defaults 0 and 1 when the caller passes
    undefined, are plain ℚ.
  - The advantage modifier is used by the source only as an exponent of
    Math.pow / **; per the field documentation it is the integer 1, 2 or 3,
    so it is embedded as a natural-number exponent.
  - The DiceSet constructor is called in the source with three different
    shapes of argument: an array of per-die spec objects (UI and test
    script), an array of plain numbers (calculateDefaultCritDice), and an
    existing DiceSet instance (the Attack methods).  The inductive DiceArg
    records which shape is passed, and DiceSet.make reproduces what the
    constructor loop does on each shape.
-/

namespace DPRCalculator

/-- Triangular number helper of the source: T(N) = (N^2 + N) / 2. -/
def T (N : ℚ) : ℚ := (N ^ 2 + N) / 2

/-- A Die object after construction.  sides is Option ℚ because the
constructor has no default for it, so it can end up holding the JavaScript
value undefined; reroll and minRoll always hold numbers (their defaults are
0 and 1). -/
structure Die where
  sides : Option ℚ
  reroll : ℚ
  minRoll : ℚ
deriving DecidableEq, Repr

/-- The Die constructor.  In JavaScript a parameter default fires exactly
when the argument is undefined, so reroll and minRoll fall back to 0 and 1
when given none; sides has no default and stores undefined as-is. -/
def Die.make (sides reroll minRoll : Option ℚ) : Die :=
  ⟨sides, reroll.getD 0, minRoll.getD 1⟩

/-- Die.getSides of the source: returns this.sides (possibly undefined). -/
def Die.getSides (d : Die) : Option ℚ := d.sides

/-- Die.getAverageRoll of the source, including its one-step recursion: the
two positive-reroll branches evaluate `new Die(this.sides, 0, this.minRoll)
.getAverageRoll()`, a die whose reroll is 0 and which therefore returns
without further recursion.  The branch conditions only involve reroll and
minRoll; every returned expression divides by this.sides, so when sides is
undefined each branch yields NaN, modelled by propagating none (in the
positive-reroll branches the recursive call is on a die with the same
defined sides, so Option.map performs the surrounding arithmetic). -/
def Die.getAverageRoll (d : Die) : Option ℚ :=
  match d.sides with
  | none => none
  | some S =>
    if h0 : d.reroll = 0 then
      some ((T S + T (d.minRoll - 1)) / S)
    else if d.reroll > d.minRoll then
      (Die.getAverageRoll ⟨some S, 0, d.minRoll⟩).map (fun a =>
        (T S + T (d.minRoll - 1) - d.reroll * d.minRoll - T d.minRoll +
          d.reroll * a) / S)
    else
      (Die.getAverageRoll ⟨some S, 0, d.minRoll⟩).map (fun a =>
        (T S + T (d.minRoll - 1) - d.reroll * d.minRoll + d.reroll * a) / S)
termination_by (if d.reroll = 0 then 0 else 1)
decreasing_by
  all_goals simp [h0]

/-- Non-recursive closed form of Die.getAverageRoll: the same three branches
with the recursive no-reroll average written out as (T S + T (M-1)) / S. -/
def Die.closedAvg (d : Die) : Option ℚ :=
  match d.sides with
  | none => none
  | some S =>
    if d.reroll = 0 then
      some ((T S + T (d.minRoll - 1)) / S)
    else if d.reroll > d.minRoll then
      some ((T S + T (d.minRoll - 1) - d.reroll * d.minRoll - T d.minRoll +
        d.reroll * ((T S + T (d.minRoll - 1)) / S)) / S)
    else
      some ((T S + T (d.minRoll - 1) - d.reroll * d.minRoll +
        d.reroll * ((T S + T (d.minRoll - 1)) / S)) / S)

theorem getAverageRoll_noReroll (s : Option ℚ) (M : ℚ) :
    Die.getAverageRoll ⟨s, 0, M⟩ = s.map (fun S => (T S + T (M - 1)) / S) := by
  unfold Die.getAverageRoll
  cases s <;> simp

theorem getAverageRoll_closed (d : Die) :
    d.getAverageRoll = d.closedAvg := by
  obtain ⟨s, r, m⟩ := d
  cases s with
  | none =>
    unfold Die.getAverageRoll Die.closedAvg
    rfl
  | some S =>
    unfold Die.getAverageRoll Die.closedAvg
    by_cases h0 : r = 0
    · simp [h0]
    · by_cases h1 : r > m
      · simp [h0, h1, getAverageRoll_noReroll]
      · simp [h0, h1, getAverageRoll_noReroll]

/-- A DiceSet object: its dice array. -/
structure DiceSet where
  dice : List Die
deriving DecidableEq, Repr

/-- One element of the array of per-die specification objects the UI and the
test script pass to the DiceSet constructor; id is the opaque list-keying
identifier, stored but never read by the engine. -/
structure DieSpec where
  sides : ℚ
  reroll : ℚ
  minRoll : ℚ
  id : ℚ
deriving DecidableEq, Repr

/-- The three shapes of argument the source actually passes to
`new DiceSet(...)`: an array of spec objects, an array of plain numbers
(possibly holding undefined entries), or an existing DiceSet instance. -/
inductive DiceArg where
  | specs : List DieSpec → DiceArg
  | nums : List (Option ℚ) → DiceArg
  | set : DiceSet → DiceArg

/-- The DiceSet constructor: `for (i = 0; i < dice.length; i++)
this.dice.push(new Die(dice[i].sides, dice[i].reroll, dice[i].minRoll))`.
  - On an array of spec objects it builds one Die per entry from its fields.
  - On an array of numbers, property access on a number yields undefined, so
    every entry becomes `new Die(undefined, undefined, undefined)`: sides
    stays undefined and reroll, minRoll take their defaults 0 and 1.  (The
    entries themselves are never read beyond those property accesses.)
  - On a DiceSet instance, `dice.length` is the instance method `length`, a
    function; the comparison `i < function` is false at i = 0, so the loop
    body never runs and the dice list stays empty. -/
def DiceSet.make : DiceArg → DiceSet
  | DiceArg.specs l =>
      ⟨l.map (fun s => Die.make (some s.sides) (some s.reroll) (some s.minRoll))⟩
  | DiceArg.nums l => ⟨l.map (fun _ => Die.make none none none)⟩
  | DiceArg.set _ => ⟨[]⟩

/-- DiceSet.getAverageRolls: a running total starting at 0, adding each
die's getAverageRoll in array order; a NaN summand makes the total NaN,
modelled by the none-absorbing accumulator. -/
def DiceSet.getAverageRolls (ds : DiceSet) : Option ℚ :=
  ds.dice.foldl
    (fun total d =>
      match total, d.getAverageRoll with
      | some t, some a => some (t + a)
      | _, _ => none)
    (some 0)

/-- DiceSet.getDie: index into the dice array; none models the undefined an
out-of-bounds JavaScript index yields. -/
def DiceSet.getDie (ds : DiceSet) (N : ℕ) : Option Die := ds.dice.get? N

/-- DiceSet.length: the number of dice. -/
def DiceSet.length (ds : DiceSet) : ℕ := ds.dice.length

/-- calculateDefaultCritDice: pushes `getDie(i % length).getSides()` for
i = 0 .. 2*length - 1 into a plain number array and passes that array to the
DiceSet constructor.  Every index i % length is in bounds whenever the loop
runs at all, so the inner match never takes its none arm on the loop's
range. -/
def calculateDefaultCritDice (diceset : DiceSet) : DiceSet :=
  DiceSet.make (DiceArg.nums
    ((List.range (diceset.length * 2)).map (fun i =>
      match diceset.getDie (i % diceset.length) with
      | some d => d.getSides
      | none => none)))

/-- p_hit of the source: probability to hit given target armor class A,
attack bonus B and advantage modifier M (number of d20 rolls, best kept). -/
def p_hit (A B : ℚ) (M : ℕ) : ℚ :=
  if A ≥ B + 20 then 1 - (1 - 0.05) ^ M
  else if A ≤ B + 2 then 1 - (1 - 0.05) ^ M
  else 1 - (1 - (21 + B - A) / 20) ^ M

/-- p_crit of the source: probability of a critical hit given the crit range
and advantage modifier. -/
def p_crit (crit_range : ℚ) (adv_mod : ℕ) : ℚ :=
  1 - (1 - (21 - crit_range) / 20) ^ adv_mod

/-- An Attack object, fields typed as the class declares them (in particular
damage_dice and crit_dice hold DiceSet instances). -/
structure Attack where
  name : String
  attack_bonus : ℚ
  damage_bonus : ℚ
  damage_dice : DiceSet
  crit_dice : DiceSet
  advantage_modifier : ℕ
  gwmsharp : Bool
  crit_range : ℚ
  target_AC : ℚ

/-- getEffectiveAttackBonus: attack_bonus - 5 under gwmsharp. -/
def Attack.getEffectiveAttackBonus (a : Attack) : ℚ :=
  if a.gwmsharp then a.attack_bonus - 5 else a.attack_bonus

/-- getEffectiveDamageBonus: damage_bonus + 10 under gwmsharp. -/
def Attack.getEffectiveDamageBonus (a : Attack) : ℚ :=
  if a.gwmsharp then a.damage_bonus + 10 else a.damage_bonus

/-- getAverageFromDice: p_hit times the average of `new DiceSet(this.
damage_dice)` — the damage DiceSet passed again through the DiceSet
constructor. -/
def Attack.getAverageFromDice (a : Attack) : Option ℚ :=
  (DiceSet.make (DiceArg.set a.damage_dice)).getAverageRolls.map (fun v =>
    p_hit a.target_AC a.getEffectiveAttackBonus a.advantage_modifier * v)

/-- getAverageFromBonus: p_hit times the effective damage bonus. -/
def Attack.getAverageFromBonus (a : Attack) : ℚ :=
  p_hit a.target_AC a.getEffectiveAttackBonus a.advantage_modifier *
    a.getEffectiveDamageBonus

/-- getAverageFromCritFactor: p_crit times the difference of the averages of
`new DiceSet(this.crit_dice)` and `new DiceSet(this.damage_dice)`. -/
def Attack.getAverageFromCritFactor (a : Attack) : Option ℚ :=
  match (DiceSet.make (DiceArg.set a.crit_dice)).getAverageRolls,
        (DiceSet.make (DiceArg.set a.damage_dice)).getAverageRolls with
  | some c, some dmg =>
      some (p_crit a.crit_range a.advantage_modifier * (c - dmg))
  | _, _ => none

/-- getAverageTotal: the sum of the three figures. -/
def Attack.getAverageTotal (a : Attack) : Option ℚ :=
  match a.getAverageFromDice, a.getAverageFromCritFactor with
  | some x, some z => some (x + a.getAverageFromBonus + z)
  | _, _ => none

theorem p_hit_pow_le_one (q : ℚ) (M : ℕ) (h0 : 0 ≤ q) (h1 : q ≤ 1) :
    0 ≤ 1 - (1 - q) ^ M ∧ 1 - (1 - q) ^ M ≤ 1 := by
  have hb0 : (0:ℚ) ≤ 1 - q := by linarith
  have hb1 : (1:ℚ) - q ≤ 1 := by linarith
  have hp0 : (0:ℚ) ≤ (1 - q) ^ M := pow_nonneg hb0 M
  have hp1 : (1 - q) ^ M ≤ (1:ℚ) := pow_le_one₀ hb0 hb1
  constructor <;> linarith

/-- C5: for advantage modifier M equal to 1, 2 or 3, p_hit takes the fixed
five-percent branch 1 - (1 - 0.05)^M exactly when A - B ≥ 20 or A - B ≤ 2,
takes the linear branch 1 - (1 - (21 + B - A)/20)^M otherwise, and in every
case the result lies in the interval [0, 1]. -/
theorem C5_p_hit_branches_and_bounds (A B : ℚ) (M : ℕ)
    (hM : M = 1 ∨ M = 2 ∨ M = 3) :
    ((A - B ≥ 20 ∨ A - B ≤ 2) → p_hit A B M = 1 - (1 - 0.05) ^ M) ∧
    (¬(A - B ≥ 20 ∨ A - B ≤ 2) →
      p_hit A B M = 1 - (1 - (21 + B - A) / 20) ^ M) ∧
    0 ≤ p_hit A B M ∧ p_hit A B M ≤ 1 := by
  clear hM
  unfold p_hit
  split_ifs with h1 h2
  · exact ⟨fun _ => rfl, fun hc => absurd (Or.inl (by linarith)) hc,
      (p_hit_pow_le_one 0.05 M (by norm_num) (by norm_num)).1,
      (p_hit_pow_le_one 0.05 M (by norm_num) (by norm_num)).2⟩
  · exact ⟨fun _ => rfl, fun hc => absurd (Or.inr (by linarith)) hc,
      (p_hit_pow_le_one 0.05 M (by norm_num) (by norm_num)).1,
      (p_hit_pow_le_one 0.05 M (by norm_num) (by norm_num)).2⟩
  · have hA1 : A < B + 20 := lt_of_not_ge h1
    have hA2 : B + 2 < A := lt_of_not_ge h2
    have hq0 : (0:ℚ) ≤ (21 + B - A) / 20 := by linarith
    have hq1 : (21 + B - A) / 20 ≤ (1:ℚ) := by linarith
    exact ⟨fun hc => by rcases hc with hc | hc <;> linarith,
      fun _ => rfl,
      (p_hit_pow_le_one ((21 + B - A) / 20) M hq0 hq1).1,
      (p_hit_pow_le_one ((21 + B - A) / 20) M hq0 hq1).2⟩

theorem C5_p_hit_branches_and_bounds_witness :
    ((2:ℕ) = 1 ∨ (2:ℕ) = 2 ∨ (2:ℕ) = 3) ∧
    ((((15:ℚ) - 4 ≥ 20 ∨ (15:ℚ) - 4 ≤ 2) →
        p_hit 15 4 2 = 1 - (1 - 0.05) ^ 2) ∧
      (¬((15:ℚ) - 4 ≥ 20 ∨ (15:ℚ) - 4 ≤ 2) →
        p_hit 15 4 2 = 1 - (1 - (21 + 4 - 15) / 20) ^ 2) ∧
      0 ≤ p_hit 15 4 2 ∧ p_hit 15 4 2 ≤ 1) :=
  ⟨Or.inr (Or.inl rfl),
    C5_p_hit_branches_and_bounds 15 4 2 (Or.inr (Or.inl rfl))⟩

/-- C6 counterexample: the claim that targetAC to p_hit(targetAC, B, 1) is
monotonically non-increasing fails at the boundary between the two branches:
with B = 10, p_hit(12, 10, 1) = 0.05 is strictly below p_hit(13, 10, 1)
= 0.9 although 12 ≤ 13. -/
theorem C6_counterexample : ¬(p_hit 13 10 1 ≤ p_hit 12 10 1) := by
  unfold p_hit
  norm_num

/-- C6 amended: p_hit(targetAC, B, 1) is monotonically non-increasing in
targetAC on the region strictly above the low boundary, that is whenever
B + 2 < A1 ≤ A2. -/
theorem C6_p_hit_monotone_amended (B A1 A2 : ℚ) (hlow : B + 2 < A1)
    (h12 : A1 ≤ A2) : p_hit A2 B 1 ≤ p_hit A1 B 1 := by
  unfold p_hit
  simp only [pow_one]
  split_ifs with ha1 ha2 hb1 hb2 ha2 hb1 hb2 <;> linarith

theorem C6_p_hit_monotone_amended_witness :
    (10:ℚ) + 2 < 14 ∧ (14:ℚ) ≤ 16 ∧ p_hit 16 10 1 ≤ p_hit 14 10 1 :=
  ⟨by norm_num, by norm_num,
    C6_p_hit_monotone_amended 10 14 16 (by norm_num) (by norm_num)⟩

/-- C7: advantage scaling, p_hit(A, B, 2) = 1 - (1 - p_hit(A, B, 1))^2 for
every A and B; the branch taken depends only on A and B, so it is the same
for both calls. -/
theorem C7_p_hit_advantage_scaling (A B : ℚ) :
    p_hit A B 2 = 1 - (1 - p_hit A B 1) ^ 2 := by
  unfold p_hit
  split_ifs <;> ring

/-- avgNoReroll(S, M), as the specification names it: the average of an
equivalent die with rerollThreshold 0 and the same sides and minRoll; this
matches the no-reroll branch of the source. -/
def avgNoReroll (S M : ℚ) : ℚ := (T S + T (M - 1)) / S

/-- Average the specification claims for the reroll-above-floor branch.
Modelled from the spec words for comparison with the source: the spec
subtracts triangular(R) where the source subtracts T(minRoll). -/
def specRerollAboveFloorAvg (S R M : ℚ) : ℚ :=
  (T S + T (M - 1) - R * M - T R + R * avgNoReroll S M) / S

/-- C4 counterexample: for the die with sides 6, rerollThreshold 3,
minRoll 1, the source getAverageRoll yields 55/12 while the formula of the
claim (which subtracts triangular(R) = T 3) yields 15/4, so the claim as
stated is false. -/
theorem C4_counterexample :
    Die.getAverageRoll ⟨some 6, 3, 1⟩ ≠ some (specRerollAboveFloorAvg 6 3 1) := by
  rw [getAverageRoll_closed]
  norm_num [Die.closedAvg, specRerollAboveFloorAvg, avgNoReroll, T]

/-- C4 amended: for every die with sides S ≥ 1, minRoll M ≥ 1 and
rerollThreshold R > M, getAverageRoll returns (T S + T (M - 1) - R * M
- T M + R * avgNoReroll S M) / S — the source subtracts the triangular
number of the minRoll, not of the reroll threshold as the claim stated. -/
theorem C4_die_reroll_above_floor_amended (S R M : ℚ) (hS : 1 ≤ S)
    (hM : 1 ≤ M) (hRM : M < R) :
    Die.getAverageRoll ⟨some S, R, M⟩ =
      some ((T S + T (M - 1) - R * M - T M + R * avgNoReroll S M) / S) := by
  have hR0 : R ≠ 0 := by intro h; rw [h] at hRM; linarith
  rw [getAverageRoll_closed]
  simp [Die.closedAvg, avgNoReroll, hR0, hRM]

theorem C4_die_reroll_above_floor_amended_witness :
    (1:ℚ) ≤ 6 ∧ (1:ℚ) ≤ 1 ∧ (1:ℚ) < 3 ∧
    Die.getAverageRoll ⟨some 6, 3, 1⟩ =
      some ((T 6 + T (1 - 1) - 3 * 1 - T 1 + 3 * avgNoReroll 6 1) / 6) :=
  ⟨by norm_num, le_refl 1, by norm_num,
    C4_die_reroll_above_floor_amended 6 3 1 (by norm_num) (le_refl 1)
      (by norm_num)⟩

/-- C9: getAverageRoll is a total function of the die and its recursion
unrolls in one step: on every die — dice with rerollThreshold at or above
sides included — it equals the non-recursive closed form closedAvg, whose
positive-reroll branches contain the no-reroll average written out instead
of a recursive call. -/
theorem C9_getAverageRoll_total_one_step (d : Die) :
    d.getAverageRoll = d.closedAvg :=
  getAverageRoll_closed d

/-- C3: for every Attack (whose damage_dice and crit_dice fields hold
DiceSet instances, as the class declares), getAverageFromDice returns p_hit
times 0 and getAverageFromCritFactor returns p_crit times (0 - 0), because
the DiceSet constructor applied to a DiceSet instance builds an empty dice
list; consequently getAverageTotal equals getAverageFromBonus. -/
theorem C3_diceset_fields_contribute_zero (a : Attack) :
    a.getAverageFromDice =
      some (p_hit a.target_AC a.getEffectiveAttackBonus a.advantage_modifier
        * 0) ∧
    a.getAverageFromCritFactor =
      some (p_crit a.crit_range a.advantage_modifier * (0 - 0)) ∧
    a.getAverageTotal = some a.getAverageFromBonus := by
  refine ⟨rfl, rfl, ?_⟩
  have h : a.getAverageTotal =
      some (p_hit a.target_AC a.getEffectiveAttackBonus a.advantage_modifier
          * 0 +
        a.getAverageFromBonus +
        p_crit a.crit_range a.advantage_modifier * (0 - 0)) := rfl
  rw [h]
  simp

/-- The end-to-end scenario attack of the specification: attackBonus 9,
damageBonus 5, damage dice 2d6, crit dice 4d6 + 6d8, advantage modifier 2,
power-attack mode on, crit range 20, target AC 15 (the id fields are the
opaque UI identifiers). -/
def exampleAttack : Attack :=
  ⟨"Holy Attack", 9, 5,
    DiceSet.make (DiceArg.specs [⟨6, 0, 1, 1⟩, ⟨6, 0, 1, 2⟩]),
    DiceSet.make (DiceArg.specs
      [⟨6, 0, 1, 3⟩, ⟨6, 0, 1, 4⟩, ⟨6, 0, 1, 5⟩, ⟨6, 0, 1, 6⟩,
       ⟨8, 0, 1, 7⟩, ⟨8, 0, 1, 8⟩, ⟨8, 0, 1, 9⟩, ⟨8, 0, 1, 10⟩,
       ⟨8, 0, 1, 11⟩, ⟨8, 0, 1, 12⟩]),
    2, true, 20, 15⟩

/-- C1: on the end-to-end scenario attack, the code returns 0 from the dice
and crit queries and 45/4 = 11.25 from the bonus query, so getAverageTotal
is 45/4 and not the 19.815 the claim states: the Attack methods pass the
stored DiceSet instances through the DiceSet constructor again, which
yields empty dice lists. -/
theorem C1_end_to_end_divergence :
    exampleAttack.getAverageFromDice = some 0 ∧
    exampleAttack.getAverageFromBonus = 45 / 4 ∧
    exampleAttack.getAverageFromCritFactor = some 0 ∧
    exampleAttack.getAverageTotal = some (45 / 4) ∧
    exampleAttack.getAverageTotal ≠ some (19.815 : ℚ) := by
  refine ⟨?_, ?_, ?_, ?_, ?_⟩ <;>
    norm_num [exampleAttack, Attack.getAverageFromDice,
      Attack.getAverageFromBonus, Attack.getAverageFromCritFactor,
      Attack.getAverageTotal, Attack.getEffectiveAttackBonus,
      Attack.getEffectiveDamageBonus, DiceSet.make, DiceSet.getAverageRolls,
      p_hit, p_crit]

/-- A concrete attack refuting the C2 formula: one d6 damage die, attack
bonus 4 against AC 15 with a normal roll and no power attack. -/
def singleD6Attack : Attack :=
  ⟨"", 4, 0, DiceSet.make (DiceArg.specs [⟨6, 0, 1, 1⟩]),
    DiceSet.make (DiceArg.specs []), 1, false, 20, 15⟩

/-- C2: the claim states getAverageFromDice = p_hit times the sum of the
average rolls of the damage dice the Attack was constructed with; on
singleD6Attack that product is (1/2) * (7/2) = 7/4, but the code returns 0
because it rebuilds a DiceSet from the DiceSet instance and so sums no
dice. -/
theorem C2_average_from_dice_divergence :
    singleD6Attack.getAverageFromDice = some 0 ∧
    singleD6Attack.damage_dice.getAverageRolls = some (7 / 2) ∧
    p_hit singleD6Attack.target_AC singleD6Attack.getEffectiveAttackBonus
        singleD6Attack.advantage_modifier * (7 / 2) = 7 / 4 ∧
    some ((7:ℚ) / 4) ≠ (some 0 : Option ℚ) := by
  refine ⟨?_, ?_, ?_, by simp⟩
  · norm_num [singleD6Attack, Attack.getAverageFromDice, DiceSet.make,
      DiceSet.getAverageRolls]
  · norm_num [singleD6Attack, DiceSet.make, Die.make,
      DiceSet.getAverageRolls, getAverageRoll_closed, Die.closedAvg, T]
  · norm_num [singleD6Attack, Attack.getEffectiveAttackBonus, p_hit]

/-- The DiceSet of one d6 and one d8 used by the default-crit-dice claim. -/
def d6d8Set : DiceSet :=
  DiceSet.make (DiceArg.specs [⟨6, 0, 1, 1⟩, ⟨8, 0, 1, 2⟩])

/-- C8: calculateDefaultCritDice on the d6-d8 set does return a set of
length 4 with rerollThreshold 0 and minRoll 1 everywhere, but every
resulting die has undefined sides instead of the side counts 6, 8, 6, 8 the
claim states, and the resulting set's average is NaN: the helper pushes
plain numbers into a constructor that reads sides, reroll and minRoll
properties off each entry. -/
theorem C8_default_crit_dice_divergence :
    calculateDefaultCritDice d6d8Set =
      ⟨[⟨none, 0, 1⟩, ⟨none, 0, 1⟩, ⟨none, 0, 1⟩, ⟨none, 0, 1⟩]⟩ ∧
    (calculateDefaultCritDice d6d8Set).dice.map Die.sides ≠
      [some 6, some 8, some 6, some 8] ∧
    (calculateDefaultCritDice d6d8Set).getAverageRolls = none := by
  have h1 : calculateDefaultCritDice d6d8Set =
      ⟨[⟨none, 0, 1⟩, ⟨none, 0, 1⟩, ⟨none, 0, 1⟩, ⟨none, 0, 1⟩]⟩ := rfl
  refine ⟨h1, ?_, ?_⟩
  · rw [h1]
    simp
  · rw [h1]
    simp [DiceSet.getAverageRolls, getAverageRoll_closed, Die.closedAvg]

/-- C10 counterexample: the Die constructor performs no validation: applied
to a negative rerollThreshold and a negative minRoll it does not signal any
error but produces an ordinary Die storing exactly those values. -/
theorem C10_counterexample :
    Die.make (some 6) (some (-1)) (some (-2)) = ⟨some 6, -1, -2⟩ := rfl

/-- C10 amended: constructing a Die with a negative minRoll or a negative
rerollThreshold signals no domain error; it produces a Die object whose
fields store the given parameters unchanged. -/
theorem C10_no_validation_amended (s : Option ℚ) (r m : ℚ)
    (h : r < 0 ∨ m < 0) :
    Die.make s (some r) (some m) = ⟨s, r, m⟩ := rfl

theorem C10_no_validation_amended_witness :
    ((-1:ℚ) < 0 ∨ (-2:ℚ) < 0) ∧
    Die.make (some 5) (some (-1)) (some (-2)) = ⟨some 5, -1, -2⟩ :=
  ⟨Or.inl (by norm_num),
    C10_no_validation_amended (some 5) (-1) (-2) (Or.inl (by norm_num))⟩

end DPRCalculator
